import Mathlib

/-!
# MissileCommand — verification of spec claims against the source

Shallow embedding of the parts of the MissileCommand TypeScript sources that
the claims concern.  JavaScript numbers are modelled as rationals (`ℚ`) where
the code only uses field arithmetic, comparisons, `Math.min`/`Math.max` and
`Math.ceil`, and as reals (`ℝ`) where `Math.sqrt` / trigonometry is involved.
`Map<string, number>` ledgers with `get(k) || 0` reads are modelled as total
functions `String → ℤ` (a missing key and a stored 0 both read as 0).
-/

namespace MissileCommand

/-! ## SharedTruck (src/unnamed/part_003, class SharedTruck)

State relevant to deployment/cooldown: `available`, `cooldown`, and the
constant `cooldownTime` field (initialised to 60 and never written).
The destroyed-city guard of `canDeploy` and the vote set do not touch the
cooldown protocol and are not needed by the claims.  -/

structure SharedTruck where
  available : Bool
  cooldown : ℚ
  cooldownTime : ℚ
  deriving DecidableEq, Repr

/-- A freshly constructed truck: `available = true`, `cooldown = 0`,
`cooldownTime = 60`. -/
def SharedTruck.init : SharedTruck :=
  { available := true, cooldown := 0, cooldownTime := 60 }

/-- `SharedTruck.deploy()`: returns `false` and leaves the truck unchanged when
not available; otherwise marks it unavailable, zeroes the cooldown and returns
`true`. -/
def SharedTruck.deploy (t : SharedTruck) : Bool × SharedTruck :=
  if t.available then
    (true, { t with available := false, cooldown := 0 })
  else
    (false, t)

/-- `SharedTruck.update(deltaTime)`: while unavailable the cooldown
accumulates; when it reaches `cooldownTime` the truck becomes available again
and the cooldown resets to 0. -/
def SharedTruck.update (deltaTime : ℚ) (t : SharedTruck) : SharedTruck :=
  if t.available then t
  else
    let c := t.cooldown + deltaTime
    if c ≥ t.cooldownTime then { t with available := true, cooldown := 0 }
    else { t with cooldown := c }

/-- Folding a list of frame delta-times through `SharedTruck.update`. -/
def SharedTruck.run (t : SharedTruck) (dts : List ℚ) : SharedTruck :=
  dts.foldl (fun s d => SharedTruck.update d s) t

/-! ## City health (src/unnamed/part_003, class City)

The fields that `takeDamage` / `repair` / `update` read or write:
`health`, `maxHealth`, `repairRate`, `active`, `helpfulnessScore`, `stance`.
The constructor randomises the initial stance; `mkCity` takes it as an
argument, everything else is the deterministic part of the constructor
(`maxHealth = 100`, `health = maxHealth`, `repairRate = 0.02`). -/

inductive Stance where
  | cooperative
  | neutral
  | selfish
  deriving DecidableEq, Repr

structure City where
  id : String
  x : ℚ
  y : ℚ
  health : ℚ
  maxHealth : ℚ
  repairRate : ℚ
  active : Bool
  helpfulnessScore : ℚ
  stance : Stance
  votedForSuperWeapon : Bool
  superWeaponConcern : ℚ
  assessedThreatLevel : ℚ
  deriving DecidableEq, Repr

/-- The deterministic part of the `City` constructor (`maxHealth = 100`,
`health = maxHealth`, `repairRate = 0.02`); the randomly rolled stance and
its helpfulness score are taken as arguments. -/
def mkCity (id : String) (x y : ℚ) (stance : Stance) (helpfulnessScore : ℚ) : City :=
  { id := id, x := x, y := y, health := 100, maxHealth := 100, repairRate := 2/100,
    active := true, helpfulnessScore := helpfulnessScore, stance := stance,
    votedForSuperWeapon := false, superWeaponConcern := 0, assessedThreatLevel := 0 }

/-- `City.isDestroyed()`: `health <= 0`. -/
def City.isDestroyed (c : City) : Bool := c.health ≤ 0

/-- `City.takeDamage(amount)`: `health = max(0, health - amount)`; if the
result is `≤ 0` the city is deactivated. -/
def City.takeDamage (amount : ℚ) (c : City) : City :=
  let h := max 0 (c.health - amount)
  { c with health := h, active := if h ≤ 0 then false else c.active }

/-- `City.repair(amount)`: `health = min(maxHealth, health + amount)` —
note the source does *not* guard on `isDestroyed` here. -/
def City.repair (amount : ℚ) (c : City) : City :=
  { c with health := min c.maxHealth (c.health + amount) }

/-- The stance-from-helpfulness rule at the end of `City.update`. -/
def stanceOf (helpfulnessScore : ℚ) : Stance :=
  if helpfulnessScore > 30 then .cooperative
  else if helpfulnessScore < -30 then .selfish
  else .neutral

/-- `City.update(deltaTime, width, height, eraMultiplier)`: repairs
`repairRate * deltaTime * eraMultiplier` only when not destroyed, then
recomputes the stance from the helpfulness score.  (`width`/`height` are
unused by the body.) -/
def City.update (deltaTime eraMultiplier : ℚ) (c : City) : City :=
  let c1 := if ¬ c.isDestroyed then c.repair (c.repairRate * deltaTime * eraMultiplier) else c
  { c1 with stance := stanceOf c1.helpfulnessScore }

/-- One session operation on a city, as quantified over by the health claim. -/
inductive CityOp where
  | takeDamage (amount : ℚ)
  | repair (amount : ℚ)
  | update (deltaTime eraMultiplier : ℚ)
  deriving DecidableEq, Repr

def CityOp.apply (c : City) : CityOp → City
  | .takeDamage a => c.takeDamage a
  | .repair a => c.repair a
  | .update dt m => c.update dt m

/-- Non-negative amounts and delta times (the claim's side condition). -/
def CityOp.nonneg : CityOp → Prop
  | .takeDamage a => 0 ≤ a
  | .repair a => 0 ≤ a
  | .update dt m => 0 ≤ dt ∧ 0 ≤ m

instance : DecidablePred CityOp.nonneg := by
  intro op; cases op <;> simp [CityOp.nonneg] <;> infer_instance

def City.runOps (c : City) (ops : List CityOp) : City :=
  ops.foldl CityOp.apply c

/-! ## Help-history ledgers (src/src/index.ts, `updateCityCommunication`
lines 504–529 and `updateCollisions` lines 1121–1128)

`L a b` is city `a`'s `helpHistory.get(b) || 0` entry for city `b`. -/

/-- The global view of all cities' help-history maps. -/
def Ledger := String → String → ℤ

/-- Point update of one city's map: `cityX.helpHistory.set(y, v)`. -/
def Ledger.set (L : Ledger) (x y : String) (v : ℤ) : Ledger :=
  fun a b => if a = x ∧ b = y then v else L a b

/-- Ledger effect of a *successful deployment* (index.ts lines 509–513):
`cityA.helpHistory.set(B, get - 1)` then `nearestCity.helpHistory.set(A, get + 1)`. -/
def Ledger.deploySuccess (L : Ledger) (a b : String) : Ledger :=
  let L1 := L.set a b (L a b - 1)
  L1.set b a (L1 b a + 1)

/-- Ledger effect of a *refusal* (index.ts lines 527–528):
only `cityA.helpHistory.set(nearestCity, get + 1)` — the refusing city's own
map is not touched. -/
def Ledger.refusal (L : Ledger) (a b : String) : Ledger :=
  L.set a b (L a b + 1)

/-- Ledger effect of the cross-city defense goodwill update
(index.ts lines 1124–1128): shooting city `+1` toward threatened city,
threatened city `-1` toward shooting city. -/
def Ledger.goodwill (L : Ledger) (shooting threatened : String) : Ledger :=
  let L1 := L.set shooting threatened (L shooting threatened + 1)
  L1.set threatened shooting (L1 threatened shooting - 1)

/-- The claimed invariant between a pair of cities. -/
def Ledger.antisym (L : Ledger) (a b : String) : Prop :=
  L a b = - L b a

/-- The claimed invariant for every pair of cities. -/
def Ledger.antisymAll (L : Ledger) : Prop :=
  ∀ a b, L.antisym a b

/-! ## Neighbor willingness (src/src/index.ts lines 461–472)

`cityBWillHelp` starts as `cityBThreat > 0.5` and is overridden for the
selfish and cooperative stances; `helpBalance` is the *requester's* ledger
entry for the neighbor. -/

def cityBWillHelp (stance : Stance) (cityBThreat : ℚ) (helpBalance : ℤ) : Bool :=
  let base := cityBThreat > 1/2
  match stance with
  | .selfish => cityBThreat > 7/10 || helpBalance > 2
  | .cooperative => cityBThreat > 3/10 || helpBalance < -1
  | .neutral => base

/-! ## Enemies, explosions, and the enemy-vs-ground collision pass
(src/src/index.ts, `updateCollisions` lines 1150–1194)

Only the fields the pass reads are modelled.  The nested tower-splash loop
(lines 1182–1190) writes only tower health, which no claim reads, and is
omitted. -/

structure GEnemy where
  id : String
  x : ℚ
  y : ℚ
  radius : ℚ
  maxHealth : ℚ
  active : Bool
  deriving DecidableEq, Repr

/-- The `Explosion` constructor arguments `(position, maxRadius, duration,
color, damage)` as a record. -/
structure Explosion where
  x : ℚ
  y : ℚ
  maxRadius : ℚ
  duration : ℚ
  color : String
  damage : ℚ
  deriving DecidableEq, Repr

/-- Ground line used throughout index.ts: `height - 40`. -/
def groundYOf (height : ℚ) : ℚ := height - 40

/-- The city-damage body of the ground-impact loop (lines 1169–1179): every
city whose horizontal distance to the impact is `< 100` takes
`ceil(maxHealth * 0.5 * (1 - dist/100))` damage. -/
def cityGroundDamage (e : GEnemy) (c : City) : City :=
  let dist := |c.x - e.x|
  if dist < 100 then
    c.takeDamage ((⌈e.maxHealth * (1/2) * (1 - dist / 100)⌉ : ℤ) : ℚ)
  else c

/-- One enemy's pass through the enemy-vs-ground loop (lines 1152–1194):
if `position.y + radius ≥ groundY` the enemy is deactivated, an explosion is
recorded at `(x, groundY)`, and every city within 100 horizontal units takes
the distance-scaled damage. -/
def enemyGroundCollision (height : ℚ) (e : GEnemy) (cities : List City) :
    GEnemy × List Explosion × List City :=
  let gY := groundYOf height
  if e.y + e.radius ≥ gY then
    ({ e with active := false },
     [{ x := e.x, y := gY, maxRadius := e.radius * 2, duration := 1/2,
        color := "#FF8800", damage := e.maxHealth * (8/10) }],
     cities.map (cityGroundDamage e))
  else
    (e, [], cities)

/-! ## Super weapon (src/src/index.ts, `updateSuperWeaponVoting` lines
542–605, `activateSuperWeapon` lines 610–642, and the re-arm / animation
branches of `update`, lines 686–692 and 803–818)

The threat level a city's `assessThreat` returns during the voting pass is
modelled by the city's `assessedThreatLevel` field (the value the source
caches there), and the incoming-threat panic heuristic (lines 548–566),
which only picks between two sets of vote thresholds, is abstracted into the
boolean `panicMode` argument. -/

/-- The per-city vote rule (lines 569–593). -/
def swVote (panicMode : Bool) (stance : Stance) (threat health : ℚ) : Bool :=
  if panicMode then
    match stance with
    | .cooperative => threat > 1/2
    | .selfish => threat > 7/10
    | .neutral => threat > 6/10
  else
    match stance with
    | .cooperative => threat > 8/10
    | .selfish => threat > 95/100 && health < 50
    | .neutral => threat > 9/10

structure SWState where
  superWeaponAvailable : Bool
  superWeaponActive : Bool
  cities : List City
  enemies : List GEnemy
  explosions : List Explosion
  deriving DecidableEq, Repr

/-- Era-themed explosion color (line 629). -/
def swExplosionColor (era : String) : String :=
  if era = "meteors" then "#FFAA00"
  else if era = "eighties_missiles" then "#FF0080"
  else "#00FFFF"

/-- The explosion `activateSuperWeapon` creates for an enemy (lines 625–631). -/
def swExplosion (era : String) (e : GEnemy) : Explosion :=
  { x := e.x, y := e.y, maxRadius := e.radius * 4, duration := 8/10,
    color := swExplosionColor era, damage := e.maxHealth * 2 }

/-- `activateSuperWeapon()` (lines 610–642): marks the weapon active and
spent, deactivates every enemy in the list while pushing an era-themed
explosion for each, and gives every surviving city `repair(20)` and
`helpfulnessScore += 15`. -/
def activateSuperWeapon (era : String) (s : SWState) : SWState :=
  { superWeaponAvailable := false
    superWeaponActive := true
    enemies := s.enemies.map (fun e => { e with active := false })
    explosions := s.explosions ++ s.enemies.map (swExplosion era)
    cities := s.cities.map (fun c =>
      if ¬ c.isDestroyed then
        { (c.repair 20) with helpfulnessScore := c.helpfulnessScore + 15 }
      else c) }

/-- `updateSuperWeaponVoting(gameTime)` (lines 542–605): early-out when the
weapon is spent or mid-animation or no city is alive; otherwise every living
city records its concern and vote, and if all living cities vote yes the
weapon fires and the votes are reset. -/
def updateSuperWeaponVoting (panicMode : Bool) (era : String) (s : SWState) : SWState :=
  if ¬ s.superWeaponAvailable ∨ s.superWeaponActive then s
  else if (s.cities.filter (fun c => ¬ c.isDestroyed)).isEmpty then s
  else
    let cities1 := s.cities.map (fun c =>
      if ¬ c.isDestroyed then
        { c with superWeaponConcern := c.assessedThreatLevel,
                 votedForSuperWeapon :=
                   swVote panicMode c.stance c.assessedThreatLevel c.health }
      else c)
    let s1 := { s with cities := cities1 }
    if (cities1.filter (fun c => ¬ c.isDestroyed)).all (·.votedForSuperWeapon) then
      let s2 := activateSuperWeapon era s1
      { s2 with cities := s2.cities.map (fun c =>
          if ¬ c.isDestroyed then { c with votedForSuperWeapon := false } else c) }
    else s1

/-- The game-loop transitions that can touch the super-weapon flags:
a voting pass (line 683), the 3-second animation timeout (lines 686–692),
and the wave-complete check that re-arms the weapon exactly when the era
changes (lines 803–818; `waveDone` abstracts `waveSpawner.isWaveComplete()`
and `eraChanged` abstracts `previousEra !== gameState.era` after
`nextWave()`). -/
inductive SWStep where
  | votingPass (panicMode : Bool) (era : String)
  | waveCheck (waveDone eraChanged : Bool)
  | animTick (animationDone : Bool)
  deriving DecidableEq, Repr

def SWStep.apply (s : SWState) : SWStep → SWState
  | .votingPass p era => updateSuperWeaponVoting p era s
  | .waveCheck waveDone eraChanged =>
      if s.enemies.isEmpty ∧ waveDone ∧ eraChanged then
        { s with superWeaponAvailable := true }
      else s
  | .animTick animationDone =>
      if s.superWeaponActive ∧ animationDone then
        { s with superWeaponActive := false }
      else s

/-- A step is an era transition when the wave-complete check fires with a
changed era. -/
def SWStep.isEraTransition : SWStep → Bool
  | .waveCheck waveDone eraChanged => waveDone && eraChanged
  | _ => false

def SWState.run (s : SWState) (steps : List SWStep) : SWState :=
  steps.foldl SWStep.apply s

/-- Shorthand: the living cities of a list. -/
def livingCities (cities : List City) : List City :=
  cities.filter (fun c => ¬ c.isDestroyed)

/-! ## Real-valued geometry (src/src/utils/math.ts, src/src/utils/collision.ts,
src/src/entities/ai.ts)

`Math.sqrt`, `Math.atan2`, `Math.cos`, `Math.sin` force these embeddings into
`ℝ`; comparisons on `ℝ` are resolved classically, so the definitions in this
section are not executable (the theorems evaluate them by rewriting). -/

section RealGeometry

attribute [local instance] Classical.propDecidable

@[ext]
structure Vec where
  x : ℝ
  y : ℝ

/-- `distance(a, b)` from math.ts: `sqrt(dx*dx + dy*dy)`. -/
noncomputable def distance (a b : Vec) : ℝ :=
  Real.sqrt ((b.x - a.x) * (b.x - a.x) + (b.y - a.y) * (b.y - a.y))

structure Circle where
  x : ℝ
  y : ℝ
  radius : ℝ

/-- `CollisionResult` with its optional fields. -/
structure CollisionResult where
  isColliding : Bool
  overlapDistance : Option ℝ
  normal : Option Vec

/-- `checkCircleCollision(c1, c2)` from collision.ts lines 16–32: strict
`d < r1 + r2` comparison; on collision the normal is
`((c2.x - c1.x)/d, (c2.y - c1.y)/d)`. -/
noncomputable def checkCircleCollision (c1 c2 : Circle) : CollisionResult :=
  let d := distance ⟨c1.x, c1.y⟩ ⟨c2.x, c2.y⟩
  let minDist := c1.radius + c2.radius
  if d < minDist then
    { isColliding := true
      overlapDistance := some (minDist - d)
      normal := some ⟨(c2.x - c1.x) / d, (c2.y - c1.y) / d⟩ }
  else
    { isColliding := false, overlapDistance := none, normal := none }

/-- `Math.atan2(y, x)` (standard quadrant-aware arctangent). -/
noncomputable def atan2 (y x : ℝ) : ℝ :=
  if x > 0 then Real.arctan (y / x)
  else if x < 0 ∧ y ≥ 0 then Real.arctan (y / x) + Real.pi
  else if x < 0 ∧ y < 0 then Real.arctan (y / x) - Real.pi
  else if x = 0 ∧ y > 0 then Real.pi / 2
  else if x = 0 ∧ y < 0 then -(Real.pi / 2)
  else 0

/-! ### AI data model (src/src/entities/ai.ts)

Only the fields `findBestTarget` / `predictEnemyPosition` read are modelled:
for the enemy config that is `behavior` and `size` (`GimmickConfig`'s other
fields are never consulted here), for the AI instance its coordination level,
target-of-record and tower list.  Object-identity comparisons
(`tower.parentCity === closestCity`, `ai.targetEnemy.id === enemy.id`) are
modelled by id equality. -/

structure GimmickConfig where
  behavior : String
  size : ℝ

structure AIEnemy where
  id : String
  position : Vec
  velocity : Vec
  radius : ℝ
  maxHealth : ℝ
  config : Option GimmickConfig
  active : Bool

structure AITower where
  position : Vec
  range : ℝ
  isFlakTower : Bool
  parentCityId : Option String

structure AICity where
  id : String
  position : Vec
  health : ℝ

def AICity.isDestroyed (c : AICity) : Prop := c.health ≤ 0

structure AIInst where
  coordinationLevel : ℝ
  targetEnemyId : Option String
  towers : List AITower

/-- The closest-living-city scan of `findBestTarget` (lines 231–242):
`closestCity` starts at `cities[0]`, `minDistToCity` at `Infinity` (modelled
as `none`), destroyed cities are skipped. -/
noncomputable def closestLiving (cities : List AICity) (p : Vec) (c0 : AICity) : AICity × Option ℝ :=
  cities.foldl
    (fun acc c =>
      if c.isDestroyed then acc
      else
        let d := distance c.position p
        match acc.2 with
        | none => (c, some d)
        | some m => if d < m then (c, some d) else acc)
    (c0, none)

/-- The score `findBestTarget` (lines 185–285) assigns to one enemy that
survives the `continue` filters, written as the sum of the loop's `score +=`
contributions.  The two consecutive `behavior === 'expanding'` blocks
(lines 213–225) are both present.  `config.size || 1` reads as 1 when the
stored size is 0.  A missing `minDistToCity` (no living city) keeps the
JavaScript semantics: `Infinity < 400` is false and
`max(0, 100 - Infinity*0.5)` is 0. -/
noncomputable def scoreVal (ai : AIInst) (tower : AITower) (c0 : AICity)
    (cities : List AICity) (height : ℝ) (e : AIEnemy) : ℝ :=
  let distToTower := distance tower.position e.position
  let flakScore := if tower.isFlakTower then (tower.range - distToTower) * 3 else 0
  let expScore1 :=
    match e.config with
    | some cfg =>
        if cfg.behavior = "expanding" then
          500 + (e.radius / (if cfg.size = 0 then 1 else cfg.size)) * 100
        else 0
    | none => 0
  let expScore2 :=
    match e.config with
    | some cfg => if cfg.behavior = "expanding" then 500 + e.radius * 5 else 0
    | none => 0
  let bossScore := if e.maxHealth > 150 then (150 : ℝ) else 0
  let cl := closestLiving cities e.position c0
  let cityScore :=
    match cl.2 with
    | some minDistToCity =>
        let closestCity := cl.1
        let dx := closestCity.position.x - e.position.x
        let velocityTowardsCity := e.velocity.x * dx > 0 ∨ e.velocity.y > 0
        if velocityTowardsCity ∧ minDistToCity < 400 then
          200 + max 0 (300 - minDistToCity) +
            (if tower.isFlakTower ∧ tower.parentCityId = some closestCity.id then
              (300 : ℝ) else 0)
        else max 0 (100 - minDistToCity * (1/2))
    | none => 0
  let inRangeScore :=
    if ¬ tower.isFlakTower ∧ (∃ t ∈ ai.towers, distance t.position e.position < t.range)
    then (80 : ℝ) else 0
  let altitudeScore :=
    if ¬ tower.isFlakTower ∧ e.position.y < height * (3/10) then (60 : ℝ) else 0
  let coordScore :=
    if ai.coordinationLevel > 7/10 ∧ ai.targetEnemyId = some e.id then
      ai.coordinationLevel * 50
    else 0
  flakScore + expScore1 + expScore2 + bossScore + cityScore + inRangeScore +
    altitudeScore + coordScore

/-- The per-enemy outcome of the `findBestTarget` loop body: `none` when the
enemy is skipped (`continue` for inactive enemies and for out-of-range
enemies at flak towers; an empty city list would crash the source), otherwise
the score. -/
noncomputable def scoreEnemy (ai : AIInst) (tower : AITower) (cities : List AICity)
    (height : ℝ) (e : AIEnemy) : Option ℝ :=
  if e.active = false then none
  else if tower.isFlakTower ∧ ¬ (distance tower.position e.position < tower.range) then none
  else
    match cities with
    | [] => none
    | c0 :: _ => some (scoreVal ai tower c0 cities height e)

/-- `predictEnemyPosition(enemy, distance, from, accuracy)` (ai.ts lines
290–392).  The two `Math.random()` draws of whichever low-accuracy branch
executes are passed in as `r1 r2`. -/
noncomputable def predictEnemyPosition (e : AIEnemy) (dist : ℝ) (fromPos : Vec)
    (accuracy : ℝ) (r1 r2 : ℝ) : Vec :=
  let projectileSpeed : ℝ := 250
  if e.config.map GimmickConfig.behavior = some "expanding" then
    let angleToCenter := atan2 (e.position.y - fromPos.y) (e.position.x - fromPos.x)
    { x := e.position.x - Real.cos angleToCenter * (e.radius * (8/10))
      y := e.position.y - Real.sin angleToCenter * (e.radius * (8/10)) }
  else if accuracy ≥ 99/100 then
    let dx := e.position.x - fromPos.x
    let dy := e.position.y - fromPos.y
    let vx := e.velocity.x
    let vy := e.velocity.y
    let a := vx * vx + vy * vy - projectileSpeed * projectileSpeed
    let b := 2 * (dx * vx + dy * vy)
    let c := dx * dx + dy * dy
    let discriminant := b * b - 4 * a * c
    let fallback : Vec :=
      { x := e.position.x + vx * (dist / projectileSpeed)
        y := e.position.y + vy * (dist / projectileSpeed) }
    if discriminant ≥ 0 ∧ |a| > 1/1000 then
      let t1 := (-b + Real.sqrt discriminant) / (2 * a)
      let t2 := (-b - Real.sqrt discriminant) / (2 * a)
      let timeToIntercept :=
        if t1 > 0 ∧ t2 > 0 then min t1 t2
        else if t1 > 0 then t1
        else if t2 > 0 then t2
        else -1
      if timeToIntercept > 0 then
        { x := e.position.x + vx * timeToIntercept
          y := e.position.y + vy * timeToIntercept }
      else fallback
    else fallback
  else
    let timeToHit := dist / projectileSpeed
    let predictedX := e.position.x + e.velocity.x * timeToHit
    let predictedY := e.position.y + e.velocity.y * timeToHit
    if accuracy ≥ 8/10 then
      let errorScale := (1 - accuracy) * 30
      { x := predictedX + (r1 - 1/2) * errorScale
        y := predictedY + (r2 - 1/2) * errorScale }
    else if accuracy ≥ 6/10 then
      let leadEffectiveness := 7/10 + (accuracy - 6/10) * (3/2)
      let actualPredictedX := e.position.x + (predictedX - e.position.x) * leadEffectiveness
      let actualPredictedY := e.position.y + (predictedY - e.position.y) * leadEffectiveness
      let errorScale := (1 - accuracy) * 40
      { x := actualPredictedX + (r1 - 1/2) * errorScale
        y := actualPredictedY + (r2 - 1/2) * errorScale }
    else
      let leadEffectiveness := 4/10 + accuracy * (1/2)
      let actualPredictedX := e.position.x + (predictedX - e.position.x) * leadEffectiveness
      let actualPredictedY := e.position.y + (predictedY - e.position.y) * leadEffectiveness
      let errorScale := (1 - accuracy) * 50
      { x := actualPredictedX + (r1 - 1/2) * errorScale
        y := actualPredictedY + (r2 - 1/2) * errorScale }

end RealGeometry

/-! ## SpatialGrid (src/src/utils/collision.ts lines 153–206)

Coordinates are modelled as rationals so that `Math.floor` is computable.
The source keys its `Map` by the string `` `${cellX},${cellY}` ``, which
encodes the integer pair injectively; the model keys by the pair itself.
`retrieve` collects ids through a `Set` before returning them — the model
returns the concatenation, which holds exactly the same ids. -/

structure Rectangle where
  x : ℚ
  y : ℚ
  width : ℚ
  height : ℚ
  deriving DecidableEq, Repr

structure SpatialGrid where
  grid : ℤ × ℤ → List ℕ
  bounds : Rectangle
  cellSize : ℚ

/-- The constructor: an empty map (every cell reads as no ids). -/
def SpatialGrid.mk0 (bounds : Rectangle) (cellSize : ℚ) : SpatialGrid :=
  { grid := fun _ => [], bounds := bounds, cellSize := cellSize }

/-- `getKey(x, y)`: `floor((x - bounds.x) / cellSize)` per axis. -/
def SpatialGrid.getKey (g : SpatialGrid) (x y : ℚ) : ℤ × ℤ :=
  (⌊(x - g.bounds.x) / g.cellSize⌋, ⌊(y - g.bounds.y) / g.cellSize⌋)

/-- `insert(id, x, y)`: push the id onto the cell's list. -/
def SpatialGrid.insert (g : SpatialGrid) (id : ℕ) (x y : ℚ) : SpatialGrid :=
  let key := g.getKey x y
  { g with grid := fun k => if k = key then g.grid key ++ [id] else g.grid k }

/-- The inclusive loop range `for (let c = lo; c <= hi; c++)`. -/
def intRange (lo hi : ℤ) : List ℤ :=
  (List.range (hi + 1 - lo).toNat).map (fun n : ℕ => lo + (n : ℤ))

/-- `retrieve(x, y, radius)`: union of the cell lists in the floor-range
covering the axis-aligned box around the query disc. -/
def SpatialGrid.retrieve (g : SpatialGrid) (x y radius : ℚ) : List ℕ :=
  let minCellX := ⌊(x - radius - g.bounds.x) / g.cellSize⌋
  let maxCellX := ⌊(x + radius - g.bounds.x) / g.cellSize⌋
  let minCellY := ⌊(y - radius - g.bounds.y) / g.cellSize⌋
  let maxCellY := ⌊(y + radius - g.bounds.y) / g.cellSize⌋
  (intRange minCellX maxCellX).flatMap fun cx =>
    (intRange minCellY maxCellY).flatMap fun cy =>
      g.grid (cx, cy)

/-- `clear()`. -/
def SpatialGrid.clear (g : SpatialGrid) : SpatialGrid :=
  { g with grid := fun _ => [] }

/-- A batch of later insertions (no intervening `clear`). -/
def SpatialGrid.insertAll (g : SpatialGrid) (items : List (ℕ × ℚ × ℚ)) : SpatialGrid :=
  items.foldl (fun g i => g.insert i.1 i.2.1 i.2.2) g

/-! ## Concrete example inputs used by witnesses and counterexamples -/

/-- A cooperative city with threat 0.9 whose no-panicMode vote is yes. -/
def exSWCity : City :=
  { id := "city_1", x := 400, y := 550, health := 50, maxHealth := 100,
    repairRate := 2/100, active := true, helpfulnessScore := 20,
    stance := .cooperative, votedForSuperWeapon := false,
    superWeaponConcern := 0, assessedThreatLevel := 9/10 }

def exSWEnemy : GEnemy :=
  { id := "enemy_1", x := 200, y := 100, radius := 10, maxHealth := 80, active := true }

/-- A state in which the super weapon is armed, one city lives and one enemy
is inbound. -/
def exSWState : SWState :=
  { superWeaponAvailable := true, superWeaponActive := false,
    cities := [exSWCity], enemies := [exSWEnemy], explosions := [] }

section RealGeometryExamples

/-- An expanding (dimension-rift) enemy sitting still at (100, 0). -/
noncomputable def exRiftEnemy : AIEnemy :=
  { id := "enemy_rift", position := ⟨100, 0⟩, velocity := ⟨0, 0⟩, radius := 10,
    maxHealth := 300, config := some { behavior := "expanding", size := 10 },
    active := true }

/-- An expanding enemy at (3,4) of radius 10, staged size 1, drifting down. -/
noncomputable def exExpEnemy : AIEnemy :=
  { id := "enemy_exp", position := ⟨3, 4⟩, velocity := ⟨0, 1⟩, radius := 10,
    maxHealth := 100, config := some { behavior := "expanding", size := 1 },
    active := true }

/-- The same enemy with a non-expanding behavior. -/
noncomputable def exFallEnemy : AIEnemy :=
  { exExpEnemy with config := some { behavior := "falling", size := 1 } }

noncomputable def exTower : AITower :=
  { position := ⟨0, 0⟩, range := 500, isFlakTower := false, parentCityId := none }

noncomputable def exAICity : AICity :=
  { id := "city_a", position := ⟨0, 0⟩, health := 100 }

noncomputable def exAI : AIInst :=
  { coordinationLevel := 0, targetEnemyId := none, towers := [] }

end RealGeometryExamples

/-! # Theorems -/

/-- **C9.** In every negotiation the neighbor's willingness to help is decided
exactly by its stance and the help balance: a selfish neighbor agrees iff its
own assessed threat > 0.7 or the balance > 2; a cooperative neighbor agrees
iff its own assessed threat > 0.3 or the balance < −1; a neutral neighbor
agrees iff its own assessed threat > 0.5. -/
theorem cityBWillHelp_characterization (threat : ℚ) (balance : ℤ) :
    (cityBWillHelp .selfish threat balance = true ↔ (threat > 7/10 ∨ balance > 2)) ∧
    (cityBWillHelp .cooperative threat balance = true ↔ (threat > 3/10 ∨ balance < -1)) ∧
    (cityBWillHelp .neutral threat balance = true ↔ threat > 1/2) := by
  refine ⟨?_, ?_, ?_⟩ <;> simp [cityBWillHelp]

/-- Folding non-negative frame times whose running total stays below the
cooldown time keeps a deployed truck unavailable and accumulates exactly
their sum. -/
theorem SharedTruck.run_stays_unavailable (dts : List ℚ) :
    ∀ t : SharedTruck, t.available = false → t.cooldownTime = 60 →
      (∀ d ∈ dts, 0 ≤ d) → t.cooldown + dts.sum < 60 →
      t.run dts = { t with cooldown := t.cooldown + dts.sum } := by
  induction dts with
  | nil =>
      intro t hav _ _ _
      simp [SharedTruck.run]
  | cons d ds ih =>
      intro t hav hct hnn hsum
      have hd : 0 ≤ d := hnn d (by simp)
      have hds : ∀ x ∈ ds, 0 ≤ x := fun x hx => hnn x (by simp [hx])
      have hsum' : 0 ≤ ds.sum := List.sum_nonneg hds
      have hstep : SharedTruck.update d t = { t with cooldown := t.cooldown + d } := by
        have hlt : ¬ (t.cooldown + d ≥ t.cooldownTime) := by
          rw [hct]
          have : t.cooldown + d ≤ t.cooldown + (d + ds.sum) := by linarith
          simp at hsum
          linarith [hsum]
        simp [SharedTruck.update, hav, hlt]
      have : SharedTruck.run t (d :: ds) = SharedTruck.run { t with cooldown := t.cooldown + d } ds := by
        simp [SharedTruck.run, hstep]
      rw [this, ih { t with cooldown := t.cooldown + d } hav hct hds (by simp at hsum ⊢; linarith)]
      simp at hsum ⊢
      ring

/-- **C5.** For every `SharedTruck`: `deploy` succeeds exactly while the truck
is available and immediately makes it unavailable with cooldown 0; while
unavailable, `update` with non-negative delta time flips the truck back to
available exactly when the accumulated cooldown reaches `cooldownTime`
(60 s), resetting the cooldown to 0 then and otherwise only increasing it by
the delta; and after a deployment no sequence of non-negative delta times
summing below 60 can make a second `deploy` of the same truck succeed. -/
theorem sharedTruck_cooldown_protocol
    (t u v : SharedTruck) (dt : ℚ) (dts : List ℚ)
    (hu : u.available = false) (hdt : 0 ≤ dt)
    (hv : v.available = true) (hvt : v.cooldownTime = 60)
    (hdts : ∀ d ∈ dts, 0 ≤ d) (hsum : dts.sum < 60) :
    ((t.deploy).1 = true ↔ t.available = true) ∧
    ((t.deploy).2 =
      if t.available then { t with available := false, cooldown := 0 } else t) ∧
    ((SharedTruck.update dt u).available = true ↔ u.cooldown + dt ≥ u.cooldownTime) ∧
    ((SharedTruck.update dt u).cooldown =
      if u.cooldown + dt ≥ u.cooldownTime then 0 else u.cooldown + dt) ∧
    (u.cooldown ≤ u.cooldown + dt) ∧
    ((((v.deploy).2).run dts).available = false) ∧
    (((((v.deploy).2).run dts).deploy).1 = false) := by
  have hdeploy : (v.deploy).2 = { v with available := false, cooldown := 0 } := by
    simp [SharedTruck.deploy, hv]
  have hrun : ((v.deploy).2).run dts =
      { v with available := false, cooldown := 0 + dts.sum } := by
    rw [hdeploy]
    exact SharedTruck.run_stays_unavailable dts _ rfl hvt hdts (by simpa using hsum)
  refine ⟨?_, ?_, ?_, ?_, ?_, ?_, ?_⟩
  · cases h : t.available <;> simp [SharedTruck.deploy, h]
  · cases h : t.available <;> simp [SharedTruck.deploy, h]
  · by_cases h : u.cooldown + dt ≥ u.cooldownTime <;>
      simp [SharedTruck.update, hu, h]
  · by_cases h : u.cooldown + dt ≥ u.cooldownTime <;>
      simp [SharedTruck.update, hu, h]
  · linarith
  · rw [hrun]
  · rw [hrun]
    simp [SharedTruck.deploy]

/-- Witness for C5 at a fresh truck, a deployed truck, `dt = 1` and frame
times `[30, 29]`. -/
theorem sharedTruck_cooldown_protocol_witness :
    ((SharedTruck.init.deploy).2.available = false) ∧
    ((0 : ℚ) ≤ 1) ∧
    (SharedTruck.init.available = true) ∧
    (SharedTruck.init.cooldownTime = 60) ∧
    (∀ d ∈ ([30, 29] : List ℚ), 0 ≤ d) ∧
    (([30, 29] : List ℚ).sum < 60) ∧
    ((((SharedTruck.init.deploy).2).run [30, 29]).deploy).1 = false :=
  ⟨by decide, by norm_num, by decide, by decide, by decide, by norm_num,
   (sharedTruck_cooldown_protocol SharedTruck.init (SharedTruck.init.deploy).2
      SharedTruck.init 1 [30, 29] (by decide) (by norm_num) (by decide) (by decide)
      (by decide) (by norm_num)).2.2.2.2.2.2⟩

/-- Every single city operation with non-negative parameters preserves
`0 ≤ health ≤ maxHealth` (and leaves the repair rate alone). -/
theorem cityOp_preserves_bounds (op : CityOp) (c : City)
    (h0 : 0 ≤ c.health) (h1 : c.health ≤ c.maxHealth) (h2 : 0 ≤ c.repairRate)
    (hop : op.nonneg) :
    0 ≤ (CityOp.apply c op).health ∧
    (CityOp.apply c op).health ≤ (CityOp.apply c op).maxHealth ∧
    0 ≤ (CityOp.apply c op).repairRate := by
  have hm : 0 ≤ c.maxHealth := h0.trans h1
  cases op with
  | takeDamage a =>
      simp only [CityOp.nonneg] at hop
      refine ⟨?_, ?_, ?_⟩ <;> simp [CityOp.apply, City.takeDamage]
      · exact ⟨hm, by linarith⟩
      · exact h2
  | repair a =>
      simp only [CityOp.nonneg] at hop
      refine ⟨?_, ?_, ?_⟩ <;> simp [CityOp.apply, City.repair]
      · exact ⟨hm, by linarith⟩
      · exact h2
  | update dt m =>
      simp only [CityOp.nonneg] at hop
      by_cases hd : c.isDestroyed = true
      · simp [CityOp.apply, City.update, hd]
        exact ⟨h0, h1, h2⟩
      · have hr : 0 ≤ c.repairRate * dt * m :=
          mul_nonneg (mul_nonneg h2 hop.1) hop.2
        simp [CityOp.apply, City.update, hd, City.repair]
        exact ⟨⟨hm, by linarith⟩, h2⟩

/-- Running a list of non-negative city operations preserves
`0 ≤ health ≤ maxHealth` and the non-negative repair rate. -/
theorem city_runOps_bounds (ops : List CityOp) :
    ∀ c : City, 0 ≤ c.health → c.health ≤ c.maxHealth → 0 ≤ c.repairRate →
      (∀ op ∈ ops, op.nonneg) →
      0 ≤ (c.runOps ops).health ∧
      (c.runOps ops).health ≤ (c.runOps ops).maxHealth ∧
      0 ≤ (c.runOps ops).repairRate := by
  induction ops with
  | nil => intro c h0 h1 h2 _; exact ⟨h0, h1, h2⟩
  | cons op ops ih =>
      intro c h0 h1 h2 hops
      have hstep := cityOp_preserves_bounds op c h0 h1 h2 (hops op (by simp))
      have : City.runOps c (op :: ops) = City.runOps (CityOp.apply c op) ops := by
        simp [City.runOps]
      rw [this]
      exact ih _ hstep.1 hstep.2.1 hstep.2.2 (fun o ho => hops o (by simp [ho]))

/-- **C6 (counterexample).** The claim fails as stated: after `takeDamage 100`
drives a fresh city's health to 0, the later operation `repair 20` — a
`repair` call with a non-negative amount, exactly as `activateSuperWeapon`
issues it — raises the health back to 20, because `City.repair` does not
check `isDestroyed`. -/
theorem city_repair_resurrects :
    ((mkCity "city_400_550" 400 550 .neutral 0).takeDamage 100).health = 0 ∧
    (0 : ℚ) ≤ 20 ∧
    (((mkCity "city_400_550" 400 550 .neutral 0).takeDamage 100).repair 20).health = 20 := by
  refine ⟨?_, by norm_num, ?_⟩ <;> norm_num [mkCity, City.takeDamage, City.repair]

/-- **C6 (amended).** For every city and every sequence of `takeDamage`,
`repair` and `update` operations with non-negative amounts and delta times,
health stays within `0 ≤ health ≤ maxHealth`; and once health has reached 0,
no later `takeDamage` or `update` operation increases it (a direct `repair`
call can, as the counterexample shows — in the shipped game every `repair`
call on a city is guarded by `!isDestroyed()`). -/
theorem city_health_bounds (c cz : City) (ops : List CityOp) (a dt m : ℚ)
    (h0 : 0 ≤ c.health) (h1 : c.health ≤ c.maxHealth) (h2 : 0 ≤ c.repairRate)
    (hops : ∀ op ∈ ops, op.nonneg)
    (hz : cz.health = 0) (ha : 0 ≤ a) :
    (0 ≤ (c.runOps ops).health ∧ (c.runOps ops).health ≤ (c.runOps ops).maxHealth) ∧
    (cz.takeDamage a).health = 0 ∧
    (cz.update dt m).health = 0 := by
  have hmain := city_runOps_bounds ops c h0 h1 h2 hops
  refine ⟨⟨hmain.1, hmain.2.1⟩, ?_, ?_⟩
  · simp [City.takeDamage, hz]
    linarith
  · have hd : cz.isDestroyed = true := by
      simp [City.isDestroyed, hz]
    simp [City.update, hd, hz]

/-- Witness for C6 (amended) at a fresh city, the op list
`[takeDamage 30, update 1 1, repair 5]`, and a city already at health 0. -/
theorem city_health_bounds_witness :
    (0 : ℚ) ≤ (mkCity "c" 100 550 .neutral 0).health ∧
    ((mkCity "c" 100 550 .neutral 0).takeDamage 100).health = 0 ∧
    (∀ op ∈ [CityOp.takeDamage 30, CityOp.update 1 1, CityOp.repair 5], op.nonneg) ∧
    (0 ≤ ((mkCity "c" 100 550 .neutral 0).runOps
        [CityOp.takeDamage 30, CityOp.update 1 1, CityOp.repair 5]).health ∧
      ((mkCity "c" 100 550 .neutral 0).runOps
        [CityOp.takeDamage 30, CityOp.update 1 1, CityOp.repair 5]).health ≤
        ((mkCity "c" 100 550 .neutral 0).runOps
          [CityOp.takeDamage 30, CityOp.update 1 1, CityOp.repair 5]).maxHealth) ∧
    (((mkCity "c" 100 550 .neutral 0).takeDamage 100).takeDamage 5).health = 0 ∧
    (((mkCity "c" 100 550 .neutral 0).takeDamage 100).update 1 1).health = 0 := by
  have h := city_health_bounds (mkCity "c" 100 550 .neutral 0)
    ((mkCity "c" 100 550 .neutral 0).takeDamage 100)
    [CityOp.takeDamage 30, CityOp.update 1 1, CityOp.repair 5] 5 1 1
    (by norm_num [mkCity]) (by norm_num [mkCity]) (by norm_num [mkCity])
    (by intro op hop; fin_cases hop <;> norm_num [CityOp.nonneg])
    (by norm_num [mkCity, City.takeDamage]) (by norm_num)
  exact ⟨by norm_num [mkCity], by norm_num [mkCity, City.takeDamage],
    by intro op hop; fin_cases hop <;> norm_num [CityOp.nonneg],
    h.1, h.2.1, h.2.2⟩

/-- **C1 (counterexample).** Starting from empty — all-zero, hence
antisymmetric — ledgers, the refusal branch of `updateCityCommunication`
(index.ts lines 527–528) increments only the requester's entry: afterwards
`A.helpHistory.get(B) = 1` while `B.helpHistory.get(A) = 0`, and
`1 ≠ -0`, so the ledgers are not antisymmetric after this negotiation
event. -/
theorem ledger_refusal_breaks_antisym :
    Ledger.antisymAll (fun _ _ => 0) ∧
    (Ledger.refusal (fun _ _ => 0) "city_a" "city_b") "city_a" "city_b" = 1 ∧
    (Ledger.refusal (fun _ _ => 0) "city_a" "city_b") "city_b" "city_a" = 0 ∧
    ¬ (Ledger.refusal (fun _ _ => 0) "city_a" "city_b").antisym "city_a" "city_b" := by
  refine ⟨fun x y => by simp [Ledger.antisym], ?_, ?_, ?_⟩ <;>
    simp [Ledger.refusal, Ledger.set, Ledger.antisym]

/-- **C1 (amended).** The help ledgers stay antisymmetric across successful
deployments (`updateCityCommunication` lines 509–513) and across the
cross-city defense goodwill updates (`updateCollisions` lines 1124–1128),
but a refusal (lines 527–528) increments only the requester's entry for the
refuser and leaves every other entry — including the refuser's reciprocal
entry — unchanged, so antisymmetry does not survive refusal events. -/
theorem ledger_antisym_per_event (L : Ledger) (a b : String) (hab : a ≠ b)
    (hanti : L.antisymAll) :
    (L.deploySuccess a b).antisymAll ∧
    (L.goodwill a b).antisymAll ∧
    (L.refusal a b) a b = L a b + 1 ∧
    (∀ x y, ¬ (x = a ∧ y = b) → (L.refusal a b) x y = L x y) := by
  refine ⟨?_, ?_, ?_, ?_⟩
  · intro x y
    have hab2 := hanti a b
    have hxy := hanti x y
    simp only [Ledger.antisym] at hab2 hxy ⊢
    by_cases h1 : x = b ∧ y = a
    · obtain ⟨hx, hy⟩ := h1
      subst hx; subst hy
      simp [Ledger.deploySuccess, Ledger.set, hab, Ne.symm hab]
      omega
    · by_cases h2 : x = a ∧ y = b
      · obtain ⟨hx, hy⟩ := h2
        subst hx; subst hy
        simp [Ledger.deploySuccess, Ledger.set, hab, Ne.symm hab]
        omega
      · have h1' : ¬ (y = b ∧ x = a) := fun h => h2 ⟨h.2, h.1⟩
        have h2' : ¬ (y = a ∧ x = b) := fun h => h1 ⟨h.2, h.1⟩
        simp only [Ledger.deploySuccess, Ledger.set]
        rw [if_neg h1, if_neg h2, if_neg h1', if_neg h2']
        exact hxy
  · intro x y
    have hab2 := hanti a b
    have hxy := hanti x y
    simp only [Ledger.antisym] at hab2 hxy ⊢
    by_cases h1 : x = b ∧ y = a
    · obtain ⟨hx, hy⟩ := h1
      subst hx; subst hy
      simp [Ledger.goodwill, Ledger.set, hab, Ne.symm hab]
      omega
    · by_cases h2 : x = a ∧ y = b
      · obtain ⟨hx, hy⟩ := h2
        subst hx; subst hy
        simp [Ledger.goodwill, Ledger.set, hab, Ne.symm hab]
        omega
      · have h1' : ¬ (y = b ∧ x = a) := fun h => h2 ⟨h.2, h.1⟩
        have h2' : ¬ (y = a ∧ x = b) := fun h => h1 ⟨h.2, h.1⟩
        simp only [Ledger.goodwill, Ledger.set]
        rw [if_neg h1, if_neg h2, if_neg h1', if_neg h2']
        exact hxy
  · simp [Ledger.refusal, Ledger.set]
  · intro x y hxy
    simp [Ledger.refusal, Ledger.set, hxy]

/-- Witness for C1 (amended) at the all-zero ledger and the city pair
`("city_a", "city_b")`. -/
theorem ledger_antisym_per_event_witness :
    ("city_a" : String) ≠ "city_b" ∧
    Ledger.antisymAll (fun _ _ => 0) ∧
    (Ledger.deploySuccess (fun _ _ => 0) "city_a" "city_b").antisymAll ∧
    (Ledger.refusal (fun _ _ => 0) "city_a" "city_b") "city_a" "city_b" = 0 + 1 :=
  ⟨by decide, fun x y => by simp [Ledger.antisym],
   (ledger_antisym_per_event (fun _ _ => 0) "city_a" "city_b" (by decide)
      (fun x y => by simp [Ledger.antisym])).1,
   (ledger_antisym_per_event (fun _ _ => 0) "city_a" "city_b" (by decide)
      (fun x y => by simp [Ledger.antisym])).2.2.1⟩

/-- **C8.** When an enemy of `maxHealth = 100` reaches ground level
(`position.y + radius ≥ height - 40`), the collision pass deactivates it,
creates an Explosion at the impact point `(x, height - 40)`, and every city
within 100 horizontal units — in particular the nearest such city — takes
exactly `ceil(100 * 0.5 * (1 - dist/100))` damage, where `dist` is its
horizontal distance from the impact (damage applied through `takeDamage`,
which floors health at 0). -/
theorem groundCollision_impact (e : GEnemy) (cities : List City) (height : ℚ)
    (c : City)
    (hmh : e.maxHealth = 100)
    (hground : groundYOf height ≤ e.y + e.radius)
    (hdist : |c.x - e.x| < 100) :
    (enemyGroundCollision height e cities).1.active = false ∧
    (enemyGroundCollision height e cities).2.1 =
      [{ x := e.x, y := groundYOf height, maxRadius := e.radius * 2,
         duration := 1/2, color := "#FF8800", damage := e.maxHealth * (8/10) }] ∧
    (enemyGroundCollision height e cities).2.2 = cities.map (cityGroundDamage e) ∧
    (cityGroundDamage e c).health =
      max 0 (c.health - ((⌈(100 : ℚ) * (1/2) * (1 - |c.x - e.x| / 100)⌉ : ℤ) : ℚ)) := by
  have hcond : e.y + e.radius ≥ groundYOf height := hground
  refine ⟨?_, ?_, ?_, ?_⟩
  · simp [enemyGroundCollision, hcond]
  · simp [enemyGroundCollision, hcond]
  · simp [enemyGroundCollision, hcond]
  · simp [cityGroundDamage, hdist, City.takeDamage, hmh]

/-- Witness for C8: a 100-health enemy lands at `x = 400` on a 600-high
field; the city at `x = 430` (horizontal distance 30) ends at
`100 - ceil(35) = 65` health. -/
theorem groundCollision_impact_witness :
    (⟨"enemy_m", 400, 556, 5, 100, true⟩ : GEnemy).maxHealth = 100 ∧
    groundYOf 600 ≤ (⟨"enemy_m", 400, 556, 5, 100, true⟩ : GEnemy).y +
      (⟨"enemy_m", 400, 556, 5, 100, true⟩ : GEnemy).radius ∧
    |(mkCity "city_i" 430 560 .neutral 0).x -
      (⟨"enemy_m", 400, 556, 5, 100, true⟩ : GEnemy).x| < 100 ∧
    (enemyGroundCollision 600 ⟨"enemy_m", 400, 556, 5, 100, true⟩
      [mkCity "city_i" 430 560 .neutral 0]).1.active = false ∧
    (cityGroundDamage ⟨"enemy_m", 400, 556, 5, 100, true⟩
      (mkCity "city_i" 430 560 .neutral 0)).health =
      max 0 ((mkCity "city_i" 430 560 .neutral 0).health -
        ((⌈(100 : ℚ) * (1/2) * (1 - |(mkCity "city_i" 430 560 .neutral 0).x -
          (⟨"enemy_m", 400, 556, 5, 100, true⟩ : GEnemy).x| / 100)⌉ : ℤ) : ℚ)) ∧
    (cityGroundDamage ⟨"enemy_m", 400, 556, 5, 100, true⟩
      (mkCity "city_i" 430 560 .neutral 0)).health = 65 :=
  ⟨by decide, by norm_num [groundYOf], by norm_num [mkCity],
   (groundCollision_impact ⟨"enemy_m", 400, 556, 5, 100, true⟩
      [mkCity "city_i" 430 560 .neutral 0] 600 (mkCity "city_i" 430 560 .neutral 0)
      (by decide) (by norm_num [groundYOf]) (by norm_num [mkCity])).1,
   (groundCollision_impact ⟨"enemy_m", 400, 556, 5, 100, true⟩
      [mkCity "city_i" 430 560 .neutral 0] 600 (mkCity "city_i" 430 560 .neutral 0)
      (by decide) (by norm_num [groundYOf]) (by norm_num [mkCity])).2.2.2,
   by norm_num [cityGroundDamage, mkCity, City.takeDamage]⟩

/-- **C7.** `checkCircleCollision` reports no collision when the distance
between the centers is exactly the sum of the radii (the comparison is a
strict `<`), and reports a collision when the distance is 1 unit less than
that sum, in which case the returned normal is the unit vector pointing from
circle 1's center toward circle 2's center (stated for distinct centers,
where that unit vector exists; the last conjunct checks it has norm 1). -/
theorem checkCircleCollision_boundary (c1 c2 d1 d2 : Circle)
    (h1 : distance ⟨c1.x, c1.y⟩ ⟨c2.x, c2.y⟩ = c1.radius + c2.radius)
    (h2 : distance ⟨d1.x, d1.y⟩ ⟨d2.x, d2.y⟩ = d1.radius + d2.radius - 1)
    (h3 : 0 < distance ⟨d1.x, d1.y⟩ ⟨d2.x, d2.y⟩) :
    (checkCircleCollision c1 c2).isColliding = false ∧
    (checkCircleCollision d1 d2).isColliding = true ∧
    (checkCircleCollision d1 d2).normal =
      some ⟨(d2.x - d1.x) / distance ⟨d1.x, d1.y⟩ ⟨d2.x, d2.y⟩,
            (d2.y - d1.y) / distance ⟨d1.x, d1.y⟩ ⟨d2.x, d2.y⟩⟩ ∧
    ((d2.x - d1.x) / distance ⟨d1.x, d1.y⟩ ⟨d2.x, d2.y⟩) ^ 2 +
      ((d2.y - d1.y) / distance ⟨d1.x, d1.y⟩ ⟨d2.x, d2.y⟩) ^ 2 = 1 := by
  have hnotlt : ¬ (distance ⟨c1.x, c1.y⟩ ⟨c2.x, c2.y⟩ < c1.radius + c2.radius) := by
    rw [h1]; exact lt_irrefl _
  have hlt : distance ⟨d1.x, d1.y⟩ ⟨d2.x, d2.y⟩ < d1.radius + d2.radius := by
    rw [h2]; linarith
  have hDnz : distance ⟨d1.x, d1.y⟩ ⟨d2.x, d2.y⟩ ≠ 0 := ne_of_gt h3
  have hD2 : (distance ⟨d1.x, d1.y⟩ ⟨d2.x, d2.y⟩) ^ 2 =
      (d2.x - d1.x) * (d2.x - d1.x) + (d2.y - d1.y) * (d2.y - d1.y) := by
    simp only [distance]
    rw [Real.sq_sqrt]
    nlinarith [mul_self_nonneg (d2.x - d1.x), mul_self_nonneg (d2.y - d1.y)]
  refine ⟨?_, ?_, ?_, ?_⟩
  · simp only [checkCircleCollision]
    rw [if_neg hnotlt]
  · simp only [checkCircleCollision]
    rw [if_pos hlt]
  · simp only [checkCircleCollision]
    rw [if_pos hlt]
  · field_simp
    rw [hD2]
    ring

/-- Witness for C7 at circles of radii 2 and 3 (resp. 2 and 4) whose centers
are 5 apart. -/
theorem checkCircleCollision_boundary_witness :
    distance ⟨(0 : ℝ), 0⟩ ⟨3, 4⟩ = 2 + 3 ∧
    distance ⟨(0 : ℝ), 0⟩ ⟨3, 4⟩ = 2 + 4 - 1 ∧
    (0 : ℝ) < distance ⟨(0 : ℝ), 0⟩ ⟨3, 4⟩ ∧
    (checkCircleCollision ⟨0, 0, 2⟩ ⟨3, 4, 3⟩).isColliding = false ∧
    (checkCircleCollision ⟨0, 0, 2⟩ ⟨3, 4, 4⟩).isColliding = true := by
  have hdist : distance ⟨(0 : ℝ), 0⟩ ⟨3, 4⟩ = 5 := by
    have h : ((3 : ℝ) - 0) * (3 - 0) + (4 - 0) * (4 - 0) = 5 ^ 2 := by norm_num
    simp only [distance]
    rw [h, Real.sqrt_sq (by norm_num : (0 : ℝ) ≤ 5)]
  have hcc := checkCircleCollision_boundary ⟨0, 0, 2⟩ ⟨3, 4, 3⟩ ⟨0, 0, 2⟩ ⟨3, 4, 4⟩
    (by show distance ⟨(0 : ℝ), 0⟩ ⟨3, 4⟩ = 2 + 3; rw [hdist]; norm_num)
    (by show distance ⟨(0 : ℝ), 0⟩ ⟨3, 4⟩ = 2 + 4 - 1; rw [hdist]; norm_num)
    (by show (0 : ℝ) < distance ⟨(0 : ℝ), 0⟩ ⟨3, 4⟩; rw [hdist]; norm_num)
  exact ⟨by rw [hdist]; norm_num, by rw [hdist]; norm_num, by rw [hdist]; norm_num,
    hcc.1, hcc.2.1⟩

/-- **C3 (counterexample).** The claim fails for "expanding" enemies: the
stationary dimension rift `exRiftEnemy` at (100, 0) with radius 10,
evaluated from a tower at the origin with accuracy 1 ≥ 0.99, is aimed at
(92, 0) — the point 80% of the radius toward the tower — not at its exact
current position (100, 0), because the expanding special case runs before
the perfect-interception quadratic. -/
theorem predictEnemyPosition_expanding_cex :
    exRiftEnemy.velocity = ⟨0, 0⟩ ∧ ((1 : ℝ) ≥ 99/100) ∧
    predictEnemyPosition exRiftEnemy 100 ⟨0, 0⟩ 1 0 0 = ⟨92, 0⟩ ∧
    predictEnemyPosition exRiftEnemy 100 ⟨0, 0⟩ 1 0 0 ≠ exRiftEnemy.position := by
  have hres : predictEnemyPosition exRiftEnemy 100 ⟨0, 0⟩ 1 0 0 = ⟨92, 0⟩ := by
    simp only [predictEnemyPosition, exRiftEnemy]
    norm_num [atan2]
  refine ⟨rfl, by norm_num, hres, ?_⟩
  rw [hres]
  intro h
  have hx : (92 : ℝ) = 100 := congrArg Vec.x h
  norm_num at hx

/-- **C3 (amended).** For every enemy whose behavior is *not* "expanding",
with velocity exactly (0, 0), and every tower position, when the accuracy is
at least 0.99 `predictEnemyPosition` returns the enemy's exact current
position (expanding enemies are instead aimed at the edge point 80% of the
radius toward the tower). -/
theorem predictEnemyPosition_stationary (e : AIEnemy) (dist accuracy r1 r2 : ℝ)
    (fromPos : Vec)
    (hv : e.velocity = ⟨0, 0⟩)
    (hacc : accuracy ≥ 99/100)
    (hbeh : ¬ (e.config.map GimmickConfig.behavior = some "expanding")) :
    predictEnemyPosition e dist fromPos accuracy r1 r2 = e.position := by
  have hvx : e.velocity.x = 0 := by rw [hv]
  have hvy : e.velocity.y = 0 := by rw [hv]
  simp only [predictEnemyPosition]
  rw [if_neg hbeh, if_pos hacc]
  simp only [hvx, hvy]
  norm_num

/-- Witness for C3 (amended) at a stationary falling enemy at (200, 50) and
a tower at the origin with accuracy 1. -/
theorem predictEnemyPosition_stationary_witness :
    (⟨"enemy_f", ⟨200, 50⟩, ⟨0, 0⟩, 10, 100, some ⟨"falling", 10⟩, true⟩ :
        AIEnemy).velocity = ⟨0, 0⟩ ∧
    ((1 : ℝ) ≥ 99/100) ∧
    ¬ ((⟨"enemy_f", ⟨200, 50⟩, ⟨0, 0⟩, 10, 100, some ⟨"falling", 10⟩, true⟩ :
        AIEnemy).config.map GimmickConfig.behavior = some "expanding") ∧
    predictEnemyPosition
      ⟨"enemy_f", ⟨200, 50⟩, ⟨0, 0⟩, 10, 100, some ⟨"falling", 10⟩, true⟩
      206 ⟨0, 0⟩ 1 0 0 =
      (⟨"enemy_f", ⟨200, 50⟩, ⟨0, 0⟩, 10, 100, some ⟨"falling", 10⟩, true⟩ :
        AIEnemy).position :=
  ⟨rfl, by norm_num, by simp,
   predictEnemyPosition_stationary
     ⟨"enemy_f", ⟨200, 50⟩, ⟨0, 0⟩, 10, 100, some ⟨"falling", 10⟩, true⟩
     206 1 0 0 ⟨0, 0⟩ rfl (by norm_num) (by simp)⟩

/-- Changing an enemy's behavior from "expanding" to any other behavior
changes its `findBestTarget` score by exactly
`1000 + (radius / (size or 1)) * 100 + radius * 5` — the two consecutive
expanding-priority blocks of the loop — since no other score component reads
the config. -/
theorem scoreVal_expanding_diff (ai : AIInst) (tower : AITower) (c0 : AICity)
    (cities : List AICity) (height : ℝ) (e : AIEnemy) (cfg : GimmickConfig)
    (b2 : String)
    (hcfg : e.config = some cfg)
    (hexp : cfg.behavior = "expanding")
    (hb2 : b2 ≠ "expanding") :
    scoreVal ai tower c0 cities height e =
      scoreVal ai tower c0 cities height
        { e with config := some { cfg with behavior := b2 } } +
      (1000 + (e.radius / (if cfg.size = 0 then 1 else cfg.size)) * 100 +
        e.radius * 5) := by
  simp only [scoreVal, hcfg, hexp]
  simp [hb2]
  ring

/-- **C2 (counterexample).** For the active expanding enemy `exExpEnemy`
(radius 10, configured size 1), the score assigned by `findBestTarget`
exceeds the score of the identical non-expanding enemy by 2050, not by
`500 + radius * 5 = 550`: the expanding bonus block appears twice in the
source (lines 213–219 and 220–225), adding `500 + (radius/size)*100` and
then `500 + radius*5` again. -/
theorem findBestTarget_expanding_bonus_cex :
    exExpEnemy.active = true ∧
    exExpEnemy.config.map GimmickConfig.behavior = some "expanding" ∧
    scoreVal exAI exTower exAICity [exAICity] 600 exExpEnemy ≠
      scoreVal exAI exTower exAICity [exAICity] 600 exFallEnemy +
        (500 + exExpEnemy.radius * 5) := by
  refine ⟨rfl, by simp [exExpEnemy], ?_⟩
  have hd := scoreVal_expanding_diff exAI exTower exAICity [exAICity] 600 exExpEnemy
    ⟨"expanding", 1⟩ "falling" rfl rfl (by decide)
  have hfall : ({ exExpEnemy with
      config := some { (⟨"expanding", 1⟩ : GimmickConfig) with behavior := "falling" } } :
      AIEnemy) = exFallEnemy := rfl
  rw [hd, hfall]
  have hr : exExpEnemy.radius = 10 := rfl
  rw [hr]
  norm_num

/-- **C2 (amended).** In the AI target-scoring function, every enemy whose
behavior is "expanding" receives — beyond the bonuses that apply to all
enemies — a bonus of exactly 1000 flat, plus radius×5, plus
100×(radius / configured size, with size 0 read as 1), for every tower and
every AI agent evaluating it: the expanding-priority block is duplicated in
the source, so the flat 500 and the growth bonuses stack twice. -/
theorem findBestTarget_expanding_bonus (ai : AIInst) (tower : AITower)
    (c0 : AICity) (cities : List AICity) (height : ℝ) (e : AIEnemy)
    (cfg : GimmickConfig) (b2 : String)
    (hcfg : e.config = some cfg)
    (hexp : cfg.behavior = "expanding")
    (hb2 : b2 ≠ "expanding") :
    scoreVal ai tower c0 cities height e =
      scoreVal ai tower c0 cities height
        { e with config := some { cfg with behavior := b2 } } +
      (1000 + (e.radius / (if cfg.size = 0 then 1 else cfg.size)) * 100 +
        e.radius * 5) :=
  scoreVal_expanding_diff ai tower c0 cities height e cfg b2 hcfg hexp hb2

/-- Witness for C2 (amended) at `exExpEnemy` against `exTower`. -/
theorem findBestTarget_expanding_bonus_witness :
    exExpEnemy.config = some ⟨"expanding", 1⟩ ∧
    (⟨"expanding", 1⟩ : GimmickConfig).behavior = "expanding" ∧
    ("falling" : String) ≠ "expanding" ∧
    scoreVal exAI exTower exAICity [exAICity] 600 exExpEnemy =
      scoreVal exAI exTower exAICity [exAICity] 600
        { exExpEnemy with
          config := some { (⟨"expanding", 1⟩ : GimmickConfig) with
            behavior := "falling" } } +
      (1000 + (exExpEnemy.radius /
        (if (⟨"expanding", 1⟩ : GimmickConfig).size = 0 then 1
         else (⟨"expanding", 1⟩ : GimmickConfig).size)) * 100 +
        exExpEnemy.radius * 5) :=
  ⟨rfl, rfl, by decide,
   findBestTarget_expanding_bonus exAI exTower exAICity [exAICity] 600 exExpEnemy
     ⟨"expanding", 1⟩ "falling" rfl rfl (by decide)⟩

/-- Membership in the inclusive integer loop range. -/
theorem mem_intRange {lo hi a : ℤ} : a ∈ intRange lo hi ↔ lo ≤ a ∧ a ≤ hi := by
  simp only [intRange, List.mem_map]
  constructor
  · rintro ⟨n, hn, rfl⟩
    rw [List.mem_range] at hn
    omega
  · rintro ⟨h1, h2⟩
    refine ⟨(a - lo).toNat, ?_, by omega⟩
    rw [List.mem_range]
    omega

/-- Insertions never change the grid's bounds or cell size. -/
theorem insertAll_preserves (items : List (ℕ × ℚ × ℚ)) :
    ∀ g : SpatialGrid, (g.insertAll items).bounds = g.bounds ∧
      (g.insertAll items).cellSize = g.cellSize := by
  induction items with
  | nil => intro g; exact ⟨rfl, rfl⟩
  | cons i is ih =>
      intro g
      have h := ih (g.insert i.1 i.2.1 i.2.2)
      simpa [SpatialGrid.insertAll, SpatialGrid.insert] using h

/-- Later insertions only append to cell lists, so cell membership is
preserved. -/
theorem mem_grid_insertAll (items : List (ℕ × ℚ × ℚ)) :
    ∀ (g : SpatialGrid) (k : ℤ × ℤ) (i : ℕ), i ∈ g.grid k →
      i ∈ (g.insertAll items).grid k := by
  induction items with
  | nil => intro g k i h; exact h
  | cons it is ih =>
      intro g k i h
      apply ih
      simp only [SpatialGrid.insert]
      by_cases hk : k = g.getKey it.2.1 it.2.2
      · subst hk
        simp
        exact Or.inl h
      · simp [hk]
        exact h

/-- **C10.** The spatial hash grid never misses a relevant entity: if an id
is inserted at point `p` and (with no intervening `clear`) any further
insertions happen, then every query `retrieve(x, y, radius)` whose center is
within `radius` of `p` returns a list containing that id — `retrieve`
returns a superset of the inserted points lying in the query disc. -/
theorem spatialGrid_retrieve_complete
    (g : SpatialGrid) (id : ℕ) (x0 y0 qx qy r : ℚ) (items : List (ℕ × ℚ × ℚ))
    (hcs : 0 < g.cellSize)
    (hdist : distance ⟨(x0 : ℝ), (y0 : ℝ)⟩ ⟨(qx : ℝ), (qy : ℝ)⟩ ≤ (r : ℝ)) :
    id ∈ ((g.insert id x0 y0).insertAll items).retrieve qx qy r := by
  have hdist' : Real.sqrt (((qx : ℝ) - x0) * ((qx : ℝ) - x0) +
      ((qy : ℝ) - y0) * ((qy : ℝ) - y0)) ≤ (r : ℝ) := hdist
  have hdx : |qx - x0| ≤ r := by
    have h1 : |(qx : ℝ) - (x0 : ℝ)| ≤ (r : ℝ) := by
      have hsq : ((qx : ℝ) - x0) * ((qx : ℝ) - x0) ≤
          ((qx : ℝ) - x0) * ((qx : ℝ) - x0) + ((qy : ℝ) - y0) * ((qy : ℝ) - y0) :=
        le_add_of_nonneg_right (mul_self_nonneg _)
      have h2 := Real.sqrt_le_sqrt hsq
      rw [Real.sqrt_mul_self_eq_abs] at h2
      exact h2.trans hdist'
    have hcast : |((qx - x0 : ℚ) : ℝ)| ≤ ((r : ℚ) : ℝ) := by push_cast; exact h1
    exact_mod_cast hcast
  have hdy : |qy - y0| ≤ r := by
    have h1 : |(qy : ℝ) - (y0 : ℝ)| ≤ (r : ℝ) := by
      have hsq : ((qy : ℝ) - y0) * ((qy : ℝ) - y0) ≤
          ((qx : ℝ) - x0) * ((qx : ℝ) - x0) + ((qy : ℝ) - y0) * ((qy : ℝ) - y0) :=
        le_add_of_nonneg_left (mul_self_nonneg _)
      have h2 := Real.sqrt_le_sqrt hsq
      rw [Real.sqrt_mul_self_eq_abs] at h2
      exact h2.trans hdist'
    have hcast : |((qy - y0 : ℚ) : ℝ)| ≤ ((r : ℚ) : ℝ) := by push_cast; exact h1
    exact_mod_cast hcast
  obtain ⟨hdx1, hdx2⟩ := abs_le.mp hdx
  obtain ⟨hdy1, hdy2⟩ := abs_le.mp hdy
  have hpres := insertAll_preserves items (g.insert id x0 y0)
  have hbG : ((g.insert id x0 y0).insertAll items).bounds = g.bounds := hpres.1
  have hcsG : ((g.insert id x0 y0).insertAll items).cellSize = g.cellSize := hpres.2
  have hx1 : ⌊(qx - r - g.bounds.x) / g.cellSize⌋ ≤ ⌊(x0 - g.bounds.x) / g.cellSize⌋ :=
    Int.floor_le_floor ((div_le_div_iff_of_pos_right hcs).mpr (by linarith))
  have hx2 : ⌊(x0 - g.bounds.x) / g.cellSize⌋ ≤ ⌊(qx + r - g.bounds.x) / g.cellSize⌋ :=
    Int.floor_le_floor ((div_le_div_iff_of_pos_right hcs).mpr (by linarith))
  have hy1 : ⌊(qy - r - g.bounds.y) / g.cellSize⌋ ≤ ⌊(y0 - g.bounds.y) / g.cellSize⌋ :=
    Int.floor_le_floor ((div_le_div_iff_of_pos_right hcs).mpr (by linarith))
  have hy2 : ⌊(y0 - g.bounds.y) / g.cellSize⌋ ≤ ⌊(qy + r - g.bounds.y) / g.cellSize⌋ :=
    Int.floor_le_floor ((div_le_div_iff_of_pos_right hcs).mpr (by linarith))
  have hmem0 : id ∈ (g.insert id x0 y0).grid (g.getKey x0 y0) := by
    simp [SpatialGrid.insert]
  have hmemG : id ∈ ((g.insert id x0 y0).insertAll items).grid (g.getKey x0 y0) :=
    mem_grid_insertAll items _ _ _ hmem0
  simp only [SpatialGrid.retrieve, List.mem_flatMap]
  refine ⟨⌊(x0 - g.bounds.x) / g.cellSize⌋, ?_, ⌊(y0 - g.bounds.y) / g.cellSize⌋, ?_, ?_⟩
  · rw [mem_intRange, hbG, hcsG]
    exact ⟨hx1, hx2⟩
  · rw [mem_intRange, hbG, hcsG]
    exact ⟨hy1, hy2⟩
  · simpa [SpatialGrid.getKey] using hmemG

/-- Witness for C10: id 7 inserted at (10, 10) into a fresh 800×600 grid of
cell size 50 is returned by `retrieve(20, 10, 15)` (the query center is 10
away). -/
theorem spatialGrid_retrieve_complete_witness :
    (0 : ℚ) < (SpatialGrid.mk0 ⟨0, 0, 800, 600⟩ 50).cellSize ∧
    distance ⟨((10 : ℚ) : ℝ), ((10 : ℚ) : ℝ)⟩ ⟨((20 : ℚ) : ℝ), ((10 : ℚ) : ℝ)⟩ ≤
      ((15 : ℚ) : ℝ) ∧
    7 ∈ (((SpatialGrid.mk0 ⟨0, 0, 800, 600⟩ 50).insert 7 10 10).insertAll
      []).retrieve 20 10 15 := by
  have hdist : distance ⟨((10 : ℚ) : ℝ), ((10 : ℚ) : ℝ)⟩
      ⟨((20 : ℚ) : ℝ), ((10 : ℚ) : ℝ)⟩ ≤ ((15 : ℚ) : ℝ) := by
    simp only [distance]
    push_cast
    rw [show ((20 : ℝ) - 10) * ((20 : ℝ) - 10) + ((10 : ℝ) - 10) * ((10 : ℝ) - 10) =
      10 ^ 2 by norm_num]
    rw [Real.sqrt_sq (by norm_num : (0 : ℝ) ≤ 10)]
    norm_num
  exact ⟨by norm_num [SpatialGrid.mk0], hdist,
    spatialGrid_retrieve_complete (SpatialGrid.mk0 ⟨0, 0, 800, 600⟩ 50) 7 10 10 20 10 15 []
      (by norm_num [SpatialGrid.mk0]) hdist⟩

/-- Recording a city's super-weapon vote does not change whether it is
destroyed. -/
theorem swVoteCity_isDestroyed (panicMode : Bool) (c : City) :
    (if ¬ c.isDestroyed then
      { c with superWeaponConcern := c.assessedThreatLevel,
               votedForSuperWeapon :=
                 swVote panicMode c.stance c.assessedThreatLevel c.health }
     else c).isDestroyed = c.isDestroyed := by
  by_cases hd : c.isDestroyed = true
  · simp [hd]
  · have hd' : c.isDestroyed = false := by simpa using hd
    simp only [hd', Bool.false_eq_true, not_false_iff, if_pos]
    rw [← hd']
    rfl

/-- The all-living-cities-voted check of the voting pass equals the vote
formula evaluated over the living cities of the incoming state. -/
theorem swVotedCities_all (s : SWState) (panicMode : Bool) :
    ((s.cities.map (fun c =>
      if ¬ c.isDestroyed then
        { c with superWeaponConcern := c.assessedThreatLevel,
                 votedForSuperWeapon :=
                   swVote panicMode c.stance c.assessedThreatLevel c.health }
      else c)).filter (fun c => ¬ c.isDestroyed)).all (·.votedForSuperWeapon) =
    (livingCities s.cities).all
      (fun c => swVote panicMode c.stance c.assessedThreatLevel c.health) := by
  rw [List.filter_map, List.all_map]
  simp only [livingCities]
  rw [List.filter_congr (q := fun c => ¬ c.isDestroyed)]
  · rw [← Bool.coe_iff_coe, List.all_eq_true, List.all_eq_true]
    constructor
    · intro h c hc
      have hlive : ¬ c.isDestroyed = true := by
        rw [List.mem_filter] at hc
        simpa using hc.2
      have := h c hc
      simpa [Function.comp, hlive] using this
    · intro h c hc
      have hlive : ¬ c.isDestroyed = true := by
        rw [List.mem_filter] at hc
        simpa using hc.2
      have := h c hc
      simpa [Function.comp, hlive] using this
  · intro c _
    simp only [Function.comp]
    rw [swVoteCity_isDestroyed panicMode c]

/-- The vote / activation / vote-reset composite, per city: a living city
(with positive max health) ends healed by `repair 20`, with `+15`
helpfulness, its concern recorded and its vote reset; a destroyed city is
untouched. -/
theorem swFiredCity (panicMode : Bool) (c : City) (hmax : 0 < c.maxHealth) :
    (fun c2 =>
      if ¬ c2.isDestroyed then { c2 with votedForSuperWeapon := false } else c2)
    ((fun c1 =>
      if ¬ c1.isDestroyed then
        { (c1.repair 20) with helpfulnessScore := c1.helpfulnessScore + 15 }
      else c1)
    ((fun c0 =>
      if ¬ c0.isDestroyed then
        { c0 with superWeaponConcern := c0.assessedThreatLevel,
                  votedForSuperWeapon :=
                    swVote panicMode c0.stance c0.assessedThreatLevel c0.health }
      else c0) c)) =
    (if ¬ c.isDestroyed then
      { c with superWeaponConcern := c.assessedThreatLevel,
               votedForSuperWeapon := false,
               health := min c.maxHealth (c.health + 20),
               helpfulnessScore := c.helpfulnessScore + 15 }
     else c) := by
  by_cases hd : c.isDestroyed = true
  · simp [hd]
  · have hh : 0 < c.health := by
      have hd' : c.isDestroyed = false := by simpa using hd
      simpa [City.isDestroyed, not_le] using hd'
    have hd2 : ¬ (c.health ≤ 0) := not_le.mpr hh
    have hrep : ¬ (min c.maxHealth (c.health + 20) ≤ 0) :=
      not_le.mpr (lt_min hmax (by linarith))
    simp [City.isDestroyed, City.repair, hd2, hrep]

/-- Closed form of one evaluation pass of `updateSuperWeaponVoting` when the
weapon is armed, idle, and some city lives. -/
theorem superWeapon_eq (s : SWState) (panicMode : Bool) (era : String)
    (hav : s.superWeaponAvailable = true)
    (hact : s.superWeaponActive = false)
    (hlive : livingCities s.cities ≠ [])
    (hmax : ∀ c ∈ s.cities, 0 < c.maxHealth) :
    updateSuperWeaponVoting panicMode era s =
      if (livingCities s.cities).all
          (fun c => swVote panicMode c.stance c.assessedThreatLevel c.health) then
        { superWeaponAvailable := false
          superWeaponActive := true
          cities := s.cities.map (fun c =>
            if ¬ c.isDestroyed then
              { c with superWeaponConcern := c.assessedThreatLevel,
                       votedForSuperWeapon := false,
                       health := min c.maxHealth (c.health + 20),
                       helpfulnessScore := c.helpfulnessScore + 15 }
            else c)
          enemies := s.enemies.map (fun e => { e with active := false })
          explosions := s.explosions ++ s.enemies.map (swExplosion era) }
      else
        { s with cities := s.cities.map (fun c =>
            if ¬ c.isDestroyed then
              { c with superWeaponConcern := c.assessedThreatLevel,
                       votedForSuperWeapon :=
                         swVote panicMode c.stance c.assessedThreatLevel c.health }
            else c) } := by
  have hcond1 : ¬ (¬ s.superWeaponAvailable = true ∨ s.superWeaponActive = true) := by
    simp [hav, hact]
  have hne : ¬ ((s.cities.filter (fun c => ¬ c.isDestroyed)).isEmpty = true) := by
    simpa [livingCities, List.isEmpty_iff] using hlive
  simp only [updateSuperWeaponVoting]
  rw [if_neg hcond1, if_neg hne]
  rw [swVotedCities_all s panicMode]
  by_cases hall : (livingCities s.cities).all
      (fun c => swVote panicMode c.stance c.assessedThreatLevel c.health) = true
  · rw [if_pos hall, if_pos hall]
    simp only [activateSuperWeapon]
    simp only [List.map_map]
    congr 1
    apply List.map_congr_left
    intro c hc
    exact swFiredCity panicMode c (hmax c hc)
  · rw [if_neg hall, if_neg hall]

/-- Availability is only granted by an era-transition step: any run of
voting passes, non-transition wave checks and animation ticks keeps a spent
weapon unavailable. -/
theorem swRun_no_era (steps : List SWStep) :
    ∀ s0 : SWState, s0.superWeaponAvailable = false →
      (∀ st ∈ steps, st.isEraTransition = false) →
      (SWState.run s0 steps).superWeaponAvailable = false := by
  induction steps with
  | nil => intro s0 h0 _; exact h0
  | cons st sts ih =>
      intro s0 h0 hsteps
      have hst : st.isEraTransition = false := hsteps st (by simp)
      have hrest : ∀ x ∈ sts, x.isEraTransition = false :=
        fun x hx => hsteps x (by simp [hx])
      have hstep : (SWStep.apply s0 st).superWeaponAvailable = false := by
        cases st with
        | votingPass p e =>
            simp [SWStep.apply, updateSuperWeaponVoting, h0]
        | waveCheck w ec =>
            simp only [SWStep.isEraTransition, Bool.and_eq_false_iff] at hst
            simp only [SWStep.apply]
            rcases hst with hw | hec
            · simp [hw, h0]
            · simp [hec, h0]
        | animTick d =>
            simp only [SWStep.apply]
            by_cases hb : s0.superWeaponActive = true ∧ d = true
            · simp [hb, h0]
            · simp [hb, h0]
      have hrun : SWState.run s0 (st :: sts) = SWState.run (SWStep.apply s0 st) sts := rfl
      rw [hrun]
      exact ih _ hstep hrest

/-- **C4.** In an evaluation pass where the super weapon is armed, not
mid-animation, and at least one city lives, the weapon activates iff every
living city's vote is true in that same pass; on activation every enemy is
deactivated with an era-themed explosion pushed per enemy, every surviving
city is healed by a flat 20 (`repair 20`, clamped at `maxHealth`) and gains
+15 helpfulness, the weapon becomes unavailable; and once unavailable it
does not become available again under any sequence of game-loop steps that
contains no era transition. -/
theorem superWeapon_protocol (s : SWState) (panicMode : Bool) (era : String)
    (s0 : SWState) (steps : List SWStep)
    (hav : s.superWeaponAvailable = true)
    (hact : s.superWeaponActive = false)
    (hlive : livingCities s.cities ≠ [])
    (hmax : ∀ c ∈ s.cities, 0 < c.maxHealth)
    (h0 : s0.superWeaponAvailable = false)
    (hsteps : ∀ st ∈ steps, st.isEraTransition = false) :
    ((updateSuperWeaponVoting panicMode era s).superWeaponActive = true ↔
      (livingCities s.cities).all
        (fun c => swVote panicMode c.stance c.assessedThreatLevel c.health) = true) ∧
    (updateSuperWeaponVoting panicMode era s =
      if (livingCities s.cities).all
          (fun c => swVote panicMode c.stance c.assessedThreatLevel c.health) then
        { superWeaponAvailable := false
          superWeaponActive := true
          cities := s.cities.map (fun c =>
            if ¬ c.isDestroyed then
              { c with superWeaponConcern := c.assessedThreatLevel,
                       votedForSuperWeapon := false,
                       health := min c.maxHealth (c.health + 20),
                       helpfulnessScore := c.helpfulnessScore + 15 }
            else c)
          enemies := s.enemies.map (fun e => { e with active := false })
          explosions := s.explosions ++ s.enemies.map (swExplosion era) }
      else
        { s with cities := s.cities.map (fun c =>
            if ¬ c.isDestroyed then
              { c with superWeaponConcern := c.assessedThreatLevel,
                       votedForSuperWeapon :=
                         swVote panicMode c.stance c.assessedThreatLevel c.health }
            else c) }) ∧
    (SWState.run s0 steps).superWeaponAvailable = false := by
  have hEq := superWeapon_eq s panicMode era hav hact hlive hmax
  refine ⟨?_, hEq, swRun_no_era steps s0 h0 hsteps⟩
  rw [hEq]
  by_cases hall : (livingCities s.cities).all
      (fun c => swVote panicMode c.stance c.assessedThreatLevel c.health) = true
  · simp [hall]
  · simp [hall, hact]

/-- Witness for C4: one living cooperative city at threat 0.9 (votes yes
without panicMode), one active enemy; the weapon fires, heals the city to
`min 100 (50 + 20) = 70`, and a spent weapon stays unavailable across a
voting pass, a non-transition wave check, and an animation tick. -/
theorem superWeapon_protocol_witness :
    exSWState.superWeaponAvailable = true ∧
    exSWState.superWeaponActive = false ∧
    livingCities exSWState.cities ≠ [] ∧
    (∀ c ∈ exSWState.cities, 0 < c.maxHealth) ∧
    (∀ st ∈ [SWStep.votingPass false "meteors", SWStep.waveCheck true false,
        SWStep.animTick true], st.isEraTransition = false) ∧
    ((updateSuperWeaponVoting false "meteors" exSWState).superWeaponActive = true ↔
      (livingCities exSWState.cities).all
        (fun c => swVote false c.stance c.assessedThreatLevel c.health) = true) ∧
    (SWState.run { exSWState with superWeaponAvailable := false }
      [SWStep.votingPass false "meteors", SWStep.waveCheck true false,
       SWStep.animTick true]).superWeaponAvailable = false ∧
    (livingCities exSWState.cities).all
      (fun c => swVote false c.stance c.assessedThreatLevel c.health) = true ∧
    (updateSuperWeaponVoting false "meteors" exSWState).superWeaponActive = true := by
  have h := superWeapon_protocol exSWState false "meteors"
    { exSWState with superWeaponAvailable := false }
    [SWStep.votingPass false "meteors", SWStep.waveCheck true false,
     SWStep.animTick true]
    rfl rfl (by decide) (by decide) rfl (by decide)
  have hvote : (livingCities exSWState.cities).all
      (fun c => swVote false c.stance c.assessedThreatLevel c.health) = true := by
    norm_num [livingCities, exSWState, exSWCity, swVote, City.isDestroyed]
  exact ⟨rfl, rfl, by decide, by decide, by decide, h.1, h.2.2, hvote,
    h.1.mpr hvote⟩

end MissileCommand
